import Mathlib

/-!
Shallow embedding of the multi-agent emergency-assessment orchestration
engine (src/agents of dineshratn/ai-agents-sos-app), faithful to the
Python source:

* `EmergencyState` mirrors the TypedDict in `state.py` (optional keys are
  `Option`s; `dict.get(k, d)` becomes `Option.getD`).
* `supervisor_agent` mirrors `supervisor.py` (routing decision, trace
  event, terminal flag, self-registration in `agents_called`).
* `situation_agent`, `guidance_agent`, `resource_agent`,
  `communication_agent` mirror the stage functions.  The external
  text-completion call plus JSON parsing of one stage is abstracted as an
  `Except String (Response × Option Nat)` argument: `.ok (r, usage)` is a
  parsed JSON payload (each JSON field an `Option`, absent fields `none`,
  `usage` the reported token count), `.error e` is any raised exception
  with description `e`.  Wall-clock values (`time.time()` readings and
  measured durations) are passed in as rational parameters.
* `driver` mirrors the LangGraph control loop built in `graph_builder.py`:
  entry at the supervisor, conditional edge through `route_to_next_agent`,
  every specialist edge returning to the supervisor, `end` terminating.
* `validateEmergencyRequest` mirrors the pydantic validation of
  `EmergencyRequest` in `models.py` (description required, no further
  constraint).
-/

def AgentNames.SUPERVISOR : String := "supervisor"

def AgentNames.SITUATION : String := "situation_agent"

def AgentNames.GUIDANCE : String := "guidance_agent"

def AgentNames.RESOURCE : String := "resource_agent"

def AgentNames.COMMUNICATION : String := "communication_agent"

def AgentNames.END : String := "end"

/-- Trace events are Python dicts with per-event key sets; the embedding
takes the union of the keys appearing in `execution_trace.append` calls,
absent keys being `none`. -/
structure TraceEvent where
  agent : String
  action : String
  next_agent : Option String := none
  reason : Option String := none
  error : Option String := none
  emergency_type : Option String := none
  severity : Option Int := none
  recommended_response : Option String := none
  steps_count : Option Nat := none
  emergency_services : Option String := none
  resources_count : Option Nat := none
  contacts : Option Nat := none
  confidence : Option ℚ := none
  tokens : Option Nat := none
  timestamp : ℚ
  execution_time : ℚ
  deriving Repr, DecidableEq

/-- Family contact entry: dict with possibly missing name/relation/phone. -/
structure Contact where
  name : Option String := none
  relation : Option String := none
  phone : Option String := none
  deriving Repr, DecidableEq

/-- Normalized family message written into `family_messages`. -/
structure ContactMessage where
  name : String
  relation : String
  sms : String
  whatsapp : String
  deriving Repr, DecidableEq

/-- The shared state of `state.py` (`EmergencyState` TypedDict). -/
structure EmergencyState where
  thread_id : Option String := none
  messages : List String := []
  description : String
  location : Option String := none
  family_contacts : Option (List Contact) := none
  next_agent : Option String := none
  agents_called : List String := []
  emergency_type : Option String := none
  severity : Option Int := none
  immediate_risks : Option (List String) := none
  situation_confidence : Option ℚ := none
  recommended_response : Option String := none
  guidance_steps : Option (List String) := none
  guidance_confidence : Option ℚ := none
  nearby_hospitals : Option (List String) := none
  emergency_services : Option String := none
  additional_resources : Option (List String) := none
  resource_confidence : Option ℚ := none
  family_messages : Option (List ContactMessage) := none
  communication_confidence : Option ℚ := none
  assessment_complete : Bool := false
  total_tokens : Nat := 0
  execution_trace : List TraceEvent := []
  workflow_id : Option String := none
  deriving Repr, DecidableEq

/-- Python str() of an optional string field inside an f-string
(None prints as "None"). -/
def pyOptStr : Option String → String
  | none => "None"
  | some s => s

/-- Conditional append used by every agent: `if x not in l: l.append(x)`. -/
def addOnce (l : List String) (x : String) : List String :=
  if x ∈ l then l else l ++ [x]

/-- Python membership test `emergency_type in ['medical','security','natural_disaster']`
on a possibly-absent state value (`None in [...]` is False). -/
def inCriticalTypes : Option String → Bool
  | none => false
  | some t => t ∈ ["medical", "security", "natural_disaster"]

/-- Embedding of `supervisor_agent` (supervisor.py lines 24-100).
`now` is the `time.time()` reading used as the trace timestamp, `dur`
the measured `execution_time`. -/
def supervisor_agent (now dur : ℚ) (state : EmergencyState) : EmergencyState :=
  let agents_called := state.agents_called
  let emergency_type := state.emergency_type
  let severity := state.severity.getD 3
  let decision : String × String :=
    if AgentNames.SITUATION ∉ agents_called then
      (AgentNames.SITUATION, "Initial situation assessment required")
    else if AgentNames.GUIDANCE ∉ agents_called then
      (AgentNames.GUIDANCE,
        "Guidance needed for " ++ pyOptStr emergency_type ++
          " emergency (severity " ++ toString severity ++ ")")
    else if AgentNames.RESOURCE ∉ agents_called then
      if 3 ≤ severity ∨ inCriticalTypes emergency_type then
        (AgentNames.RESOURCE,
          "Resource coordination needed (severity " ++ toString severity ++ ")")
      else
        (AgentNames.END, "Low severity - resources not needed")
    else
      (AgentNames.END, "All specialist agents consulted")
  let next_agent := decision.1
  let reason := decision.2
  { state with
    next_agent := some next_agent,
    assessment_complete :=
      if next_agent = AgentNames.END then true else state.assessment_complete,
    execution_trace := state.execution_trace ++
      [{ agent := AgentNames.SUPERVISOR, action := "routing_decision",
         next_agent := some next_agent, reason := some reason,
         timestamp := now, execution_time := dur }],
    agents_called := addOnce agents_called AgentNames.SUPERVISOR }

/-- Embedding of `route_to_next_agent` (supervisor.py lines 103-118). -/
def route_to_next_agent (state : EmergencyState) : String :=
  state.next_agent.getD AgentNames.END

/-- Parsed JSON payload of the situation collaborator (each `.get` field
optional). -/
structure SituationResponse where
  emergencyType : Option String := none
  severity : Option Int := none
  immediateRisks : Option (List String) := none
  confidence : Option ℚ := none
  deriving Repr, DecidableEq

/-- Parsed JSON payload of the guidance collaborator. -/
structure GuidanceResponse where
  recommendedResponse : Option String := none
  guidanceSteps : Option (List String) := none
  confidence : Option ℚ := none
  deriving Repr, DecidableEq

/-- Parsed JSON payload of the resource collaborator. -/
structure ResourceResponse where
  emergencyServices : Option String := none
  nearbyResources : Option (List String) := none
  additionalResources : Option (List String) := none
  confidence : Option ℚ := none
  deriving Repr, DecidableEq

/-- One contact entry of the communication collaborator's JSON reply. -/
structure RawContactMessage where
  name : Option String := none
  relation : Option String := none
  sms : Option String := none
  whatsapp : Option String := none
  deriving Repr, DecidableEq

/-- Parsed JSON payload of the communication collaborator. -/
structure CommunicationResponse where
  contacts : Option (List RawContactMessage) := none
  overallConfidence : Option ℚ := none
  deriving Repr, DecidableEq

/-- Embedding of `situation_agent` (situation_agent.py lines 52-179).
`result` abstracts the LLM call plus `json.loads`: `.ok (a, usage)` is
the parsed assessment with the reported token usage, `.error e` is any
exception with description `str(e)`. -/
def situation_agent (now dur : ℚ)
    (result : Except String (SituationResponse × Option Nat))
    (state : EmergencyState) : EmergencyState :=
  match result with
  | .ok (assessment, usage) =>
    let emergency_type := assessment.emergencyType.getD "unknown"
    let severity := assessment.severity.getD 3
    let risks := assessment.immediateRisks.getD []
    let conf := assessment.confidence.getD 3
    let tokens_used := usage.getD 0
    { state with
      emergency_type := some emergency_type,
      severity := some severity,
      immediate_risks := some risks,
      situation_confidence := some conf,
      agents_called := addOnce state.agents_called AgentNames.SITUATION,
      total_tokens := state.total_tokens + tokens_used,
      execution_trace := state.execution_trace ++
        [{ agent := AgentNames.SITUATION, action := "situation_assessment",
           emergency_type := some emergency_type, severity := some severity,
           confidence := some conf, tokens := some tokens_used,
           timestamp := now, execution_time := dur }] }
  | .error e =>
    { state with
      emergency_type := some "unknown",
      severity := some 3,
      immediate_risks := some ["Unable to assess - proceed with caution"],
      situation_confidence := some 1,
      agents_called := addOnce state.agents_called AgentNames.SITUATION,
      execution_trace := state.execution_trace ++
        [{ agent := AgentNames.SITUATION, action := "error",
           error := some e, timestamp := now, execution_time := dur }] }

/-- Fallback guidance steps hard-coded in guidance_agent.py lines 172-178. -/
def guidanceFallbackSteps : List String :=
  ["Stay calm and assess the situation",
   "Move to a safe location if possible",
   "Call for help if needed",
   "Follow any official emergency instructions",
   "Wait for assistance to arrive"]

/-- Embedding of `guidance_agent` (guidance_agent.py lines 55-198). -/
def guidance_agent (now dur : ℚ)
    (result : Except String (GuidanceResponse × Option Nat))
    (state : EmergencyState) : EmergencyState :=
  match result with
  | .ok (guidance, usage) =>
    let recommended := guidance.recommendedResponse.getD "contact_help"
    let steps := guidance.guidanceSteps.getD []
    let conf := guidance.confidence.getD 3
    let tokens_used := usage.getD 0
    { state with
      recommended_response := some recommended,
      guidance_steps := some steps,
      guidance_confidence := some conf,
      agents_called := addOnce state.agents_called AgentNames.GUIDANCE,
      total_tokens := state.total_tokens + tokens_used,
      execution_trace := state.execution_trace ++
        [{ agent := AgentNames.GUIDANCE, action := "guidance_generation",
           recommended_response := some recommended,
           steps_count := some steps.length, confidence := some conf,
           tokens := some tokens_used,
           timestamp := now, execution_time := dur }] }
  | .error e =>
    { state with
      recommended_response := some "contact_help",
      guidance_steps := some guidanceFallbackSteps,
      guidance_confidence := some 1,
      agents_called := addOnce state.agents_called AgentNames.GUIDANCE,
      execution_trace := state.execution_trace ++
        [{ agent := AgentNames.GUIDANCE, action := "error",
           error := some e, timestamp := now, execution_time := dur }] }

/-- Embedding of `resource_agent` (resource_agent.py lines 56-197). -/
def resource_agent (now dur : ℚ)
    (result : Except String (ResourceResponse × Option Nat))
    (state : EmergencyState) : EmergencyState :=
  match result with
  | .ok (resources, usage) =>
    let services := resources.emergencyServices.getD "911"
    let hospitals := resources.nearbyResources.getD []
    let extra := resources.additionalResources.getD []
    let conf := resources.confidence.getD 3
    let tokens_used := usage.getD 0
    { state with
      emergency_services := some services,
      nearby_hospitals := some hospitals,
      additional_resources := some extra,
      resource_confidence := some conf,
      agents_called := addOnce state.agents_called AgentNames.RESOURCE,
      total_tokens := state.total_tokens + tokens_used,
      execution_trace := state.execution_trace ++
        [{ agent := AgentNames.RESOURCE, action := "resource_coordination",
           emergency_services := some services,
           resources_count := some hospitals.length, confidence := some conf,
           tokens := some tokens_used,
           timestamp := now, execution_time := dur }] }
  | .error e =>
    { state with
      emergency_services := some "911",
      nearby_hospitals := some ["Call 911 for nearest emergency facility"],
      additional_resources := some ["National Emergency Hotline: 911"],
      resource_confidence := some 1,
      agents_called := addOnce state.agents_called AgentNames.RESOURCE,
      execution_trace := state.execution_trace ++
        [{ agent := AgentNames.RESOURCE, action := "error",
           error := some e, timestamp := now, execution_time := dur }] }

/-- Normalization of one collaborator contact entry
(communication_agent.py lines 174-182). -/
def normalizeContactMessage (c : RawContactMessage) : ContactMessage :=
  { name := c.name.getD "Unknown",
    relation := c.relation.getD "family",
    sms := c.sms.getD "",
    whatsapp := c.whatsapp.getD "" }

/-- Fallback template message for one family contact
(communication_agent.py lines 230-248); `name or relation` / `name or "Unknown"`
use Python truthiness of the name string. -/
def commFallbackMessage (emergency_type : String) (severity : Int)
    (location : String) (c : Contact) : ContactMessage :=
  let name := c.name.getD ""
  let relation := c.relation.getD "family"
  { name := if name = "" then "Unknown" else name,
    relation := relation,
    sms := "There is an emergency. I am safe for now but may need help. Type: " ++
      emergency_type ++ ", Location: " ++ location ++ ". I will update you as I can.",
    whatsapp := "Hi " ++ (if name = "" then relation else name) ++
      ", there is an emergency situation (type: " ++ emergency_type ++
      ", severity: " ++ toString severity ++ "/5) at " ++ location ++
      ". I may need your support. I will share updates when possible." }

/-- Embedding of `communication_agent` (communication_agent.py lines 84-271).
The `not isinstance(family_contacts, list) or not family_contacts` guard
reduces, over the typed state, to the effective contact list being empty
(`state.get("family_contacts", [])` yields `[]` when the key is absent). -/
def communication_agent (now dur : ℚ)
    (result : Except String (CommunicationResponse × Option Nat))
    (state : EmergencyState) : EmergencyState :=
  let emergency_type := state.emergency_type.getD "unknown"
  let severity := state.severity.getD 3
  let location := state.location.getD "Unknown"
  let family_contacts := state.family_contacts.getD []
  if family_contacts = [] then
    { state with
      execution_trace := state.execution_trace ++
        [{ agent := AgentNames.COMMUNICATION, action := "no_contacts",
           timestamp := now, execution_time := dur }],
      agents_called := addOnce state.agents_called AgentNames.COMMUNICATION,
      family_messages := some [],
      communication_confidence := some 1 }
  else
    match result with
    | .ok (data, usage) =>
      let contacts_messages := data.contacts.getD []
      let conf := data.overallConfidence.getD 3
      let normalized := contacts_messages.map normalizeContactMessage
      let tokens_used := usage.getD 0
      { state with
        family_messages := some normalized,
        communication_confidence := some conf,
        total_tokens := state.total_tokens + tokens_used,
        agents_called := addOnce state.agents_called AgentNames.COMMUNICATION,
        execution_trace := state.execution_trace ++
          [{ agent := AgentNames.COMMUNICATION,
             action := "family_communication_generation",
             contacts := some normalized.length, confidence := some conf,
             tokens := some tokens_used,
             timestamp := now, execution_time := dur }] }
    | .error e =>
      { state with
        family_messages := some (family_contacts.map
          (commFallbackMessage emergency_type severity location)),
        communication_confidence := some 1,
        agents_called := addOnce state.agents_called AgentNames.COMMUNICATION,
        execution_trace := state.execution_trace ++
          [{ agent := AgentNames.COMMUNICATION, action := "error",
             error := some e, timestamp := now, execution_time := dur }] }

/-- Per-run outcomes of the external text-completion collaborator, one
entry per specialist stage of the compiled graph (each stage is invoked
at most once per run). -/
structure Oracle where
  sit : Except String (SituationResponse × Option Nat)
  guid : Except String (GuidanceResponse × Option Nat)
  res : Except String (ResourceResponse × Option Nat)
  deriving Repr

/-- Embedding of the LangGraph control loop compiled by
`build_emergency_assessment_graph` (graph_builder.py lines 12-70): entry at
the supervisor, conditional edge through `route_to_next_agent` to one of
the three specialists or `END`, every specialist edge returning to the
supervisor.  `fuel` bounds the number of supervisor evaluations (the graph
itself has no bound; termination is the content of the termination claim);
`clock k` supplies the `time.time()` reading of the k-th node invocation,
durations are abstracted as `0`.  `none` is returned when `fuel` runs out
or on an unrecognized `next_agent` value (fatal in LangGraph). -/
def driver : Nat → Oracle → (Nat → ℚ) → Nat → EmergencyState →
    Option EmergencyState
  | 0, _, _, _, _ => none
  | fuel + 1, o, clock, k, st =>
    let st1 := supervisor_agent (clock k) 0 st
    let n := route_to_next_agent st1
    if n = AgentNames.END then some st1
    else if n = AgentNames.SITUATION then
      driver fuel o clock (k + 2) (situation_agent (clock (k + 1)) 0 o.sit st1)
    else if n = AgentNames.GUIDANCE then
      driver fuel o clock (k + 2) (guidance_agent (clock (k + 1)) 0 o.guid st1)
    else if n = AgentNames.RESOURCE then
      driver fuel o clock (k + 2) (resource_agent (clock (k + 1)) 0 o.res st1)
    else none

/-- Initial state assembled by `assess_emergency_multi_agent`
(main.py lines 178-189); TypedDict keys not present in that literal are
absent (`none`). -/
def initialState (description : String)
    (location thread_id workflow_id : Option String) : EmergencyState :=
  { description := description,
    location := location,
    thread_id := thread_id,
    workflow_id := workflow_id,
    agents_called := [],
    assessment_complete := false,
    total_tokens := 0,
    messages := [],
    execution_trace := [] }

/-- Number of supervisor routing events in a trace. -/
def routerEventCount (tr : List TraceEvent) : Nat :=
  tr.countP (fun e => e.action = "routing_decision")

/-- Raw inbound request body before pydantic validation: each field either
present or missing. -/
structure RawRequest where
  description : Option String := none
  location : Option String := none
  thread_id : Option String := none
  deriving Repr, DecidableEq

/-- Validated request, mirroring `EmergencyRequest` in models.py lines 6-10. -/
structure EmergencyRequest where
  description : String
  location : Option String := none
  thread_id : Option String := none
  deriving Repr, DecidableEq

/-- Embedding of pydantic validation of `EmergencyRequest` (models.py
lines 6-10): `description` is a required field (`Field(...)`) with no
further constraint; `location` and `thread_id` default to `None`.  A
missing required field is a validation error rejected before the endpoint
body (hence before any stage or router invocation and before any trace
exists). -/
def validateEmergencyRequest (r : RawRequest) : Except String EmergencyRequest :=
  match r.description with
  | none => .error "field required: description"
  | some d => .ok { description := d, location := r.location, thread_id := r.thread_id }

/-- Definition written from the specification's words (spec section 4.2,
priority-ordered transition table) for the routing-refinement claim: given
the executed stage ids, the category, and the severity of the record, the
next stage is the situation stage when its id is absent, else the guidance
stage when absent, else — when the resource id is absent — the resource
stage if severity ≥ 3 or the category is medical, security or
natural_disaster and terminal otherwise, else terminal. -/
def routerNextSpec (executed : List String) (category : Option String)
    (sv : Int) : String :=
  if AgentNames.SITUATION ∉ executed then AgentNames.SITUATION
  else if AgentNames.GUIDANCE ∉ executed then AgentNames.GUIDANCE
  else if AgentNames.RESOURCE ∉ executed then
    if 3 ≤ sv ∨ category = some "medical" ∨ category = some "security" ∨
        category = some "natural_disaster" then
      AgentNames.RESOURCE
    else AgentNames.END
  else AgentNames.END

/-- One router or stage operation on the shared state, with its wall-clock
reading, duration, and (for the specialists) collaborator outcome. -/
inductive AgentOp where
  | sup (now dur : ℚ)
  | sit (now dur : ℚ) (r : Except String (SituationResponse × Option Nat))
  | guid (now dur : ℚ) (r : Except String (GuidanceResponse × Option Nat))
  | res (now dur : ℚ) (r : Except String (ResourceResponse × Option Nat))
  | comm (now dur : ℚ) (r : Except String (CommunicationResponse × Option Nat))

/-- Wall-clock reading of an operation (the timestamp its trace event gets). -/
def AgentOp.time : AgentOp → ℚ
  | .sup now _ => now
  | .sit now _ _ => now
  | .guid now _ _ => now
  | .res now _ _ => now
  | .comm now _ _ => now

/-- Application of one operation to the shared state. -/
def applyOp : AgentOp → EmergencyState → EmergencyState
  | .sup now dur, st => supervisor_agent now dur st
  | .sit now dur r, st => situation_agent now dur r st
  | .guid now dur r, st => guidance_agent now dur r st
  | .res now dur r, st => resource_agent now dur r st
  | .comm now dur r, st => communication_agent now dur r st

/-- Trace timestamps are non-decreasing along the event list. -/
def tsMono (tr : List TraceEvent) : Prop :=
  tr.Pairwise (fun a b => a.timestamp ≤ b.timestamp)

/-- Collaborator reply reporting an out-of-range severity (9) and
confidence (7.0), used to probe the absence of clamping. -/
def stormResponse : SituationResponse :=
  { emergencyType := some "other", severity := some 9,
    immediateRisks := some ["flying debris"], confidence := some 7 }

/-- Fresh run state for the out-of-range probe. -/
def stormState : EmergencyState := initialState "severe storm" none none none

/-- Collaborator that fails on every stage call. -/
def allFailOracle : Oracle :=
  { sit := .error "network down", guid := .error "network down",
    res := .error "network down" }

/-- Collaborator replies for the severity-2 "accident" routing scenario. -/
def accidentOracle : Oracle :=
  { sit := .ok ({ emergencyType := some "accident", severity := some 2,
                  immediateRisks := some ["minor collision"],
                  confidence := some 4 }, some 120),
    guid := .ok ({ recommendedResponse := some "self-help",
                   guidanceSteps := some ["check for injuries", "move off the road"],
                   confidence := some 4 }, some 80),
    res := .error "not invoked" }

/-- Full pipeline run of the severity-2 "accident" scenario. -/
def accidentRun : Option EmergencyState :=
  driver 4 accidentOracle (fun _ => 0) 0
    (initialState "minor car accident" (some "Main St") none none)

/-- Membership after a conditional append. -/
theorem mem_addOnce (l : List String) (x y : String) :
    y ∈ addOnce l x ↔ y ∈ l ∨ y = x := by
  unfold addOnce
  split
  · next hx =>
    constructor
    · exact Or.inl
    · rintro (h1 | h1)
      · exact h1
      · exact h1 ▸ hx
  · simp

/-- Conditional append of a different id does not affect membership. -/
theorem mem_addOnce_ne {x y : String} (h : y ≠ x) (l : List String) :
    y ∈ addOnce l x ↔ y ∈ l := by
  simp [mem_addOnce, h]

/-- The appended id is a member afterwards. -/
theorem mem_addOnce_self (l : List String) (x : String) : x ∈ addOnce l x := by
  unfold addOnce
  split
  · assumption
  · simp

/-- Previous members survive a conditional append. -/
theorem mem_addOnce_of_mem {y : String} {l : List String} (x : String)
    (h : y ∈ l) : y ∈ addOnce l x :=
  (mem_addOnce l x y).mpr (Or.inl h)

/-- Conditional append preserves duplicate-freedom. -/
theorem addOnce_nodup (l : List String) (x : String) (h : l.Nodup) :
    (addOnce l x).Nodup := by
  unfold addOnce
  split
  · exact h
  · next hx => simp [List.nodup_append, h, hx]

/-- Conditional append only extends the list. -/
theorem addOnce_grows (l : List String) (x : String) :
    ∃ t, addOnce l x = l ++ t := by
  unfold addOnce
  split
  · exact ⟨[], by simp⟩
  · exact ⟨[x], rfl⟩

/-- Appending an event no earlier than every existing one keeps timestamps
non-decreasing. -/
theorem tsMono_append_single (tr : List TraceEvent) (ev : TraceEvent)
    (h : tsMono tr) (h2 : ∀ e ∈ tr, e.timestamp ≤ ev.timestamp) :
    tsMono (tr ++ [ev]) := by
  unfold tsMono at h ⊢
  rw [List.pairwise_append]
  exact ⟨h, List.pairwise_singleton _ _, fun a ha b hb => by
    simp at hb
    exact hb ▸ h2 a ha⟩

/-- The supervisor registers itself in the executed list. -/
theorem sup_agents (now dur : ℚ) (st : EmergencyState) :
    (supervisor_agent now dur st).agents_called =
      addOnce st.agents_called AgentNames.SUPERVISOR := rfl

/-- The situation stage registers its id, on success and on fallback alike. -/
theorem situation_agent_agents (now dur : ℚ)
    (r : Except String (SituationResponse × Option Nat)) (st : EmergencyState) :
    (situation_agent now dur r st).agents_called =
      addOnce st.agents_called AgentNames.SITUATION := by
  cases r with
  | ok p => cases p; rfl
  | error e => rfl

/-- The guidance stage registers its id, on success and on fallback alike. -/
theorem guidance_agent_agents (now dur : ℚ)
    (r : Except String (GuidanceResponse × Option Nat)) (st : EmergencyState) :
    (guidance_agent now dur r st).agents_called =
      addOnce st.agents_called AgentNames.GUIDANCE := by
  cases r with
  | ok p => cases p; rfl
  | error e => rfl

/-- The resource stage registers its id, on success and on fallback alike. -/
theorem resource_agent_agents (now dur : ℚ)
    (r : Except String (ResourceResponse × Option Nat)) (st : EmergencyState) :
    (resource_agent now dur r st).agents_called =
      addOnce st.agents_called AgentNames.RESOURCE := by
  cases r with
  | ok p => cases p; rfl
  | error e => rfl

/-- Routing rule 1: the situation stage is chosen while its id is absent. -/
theorem route_sup_sit (now dur : ℚ) (st : EmergencyState)
    (h : AgentNames.SITUATION ∉ st.agents_called) :
    route_to_next_agent (supervisor_agent now dur st) = AgentNames.SITUATION := by
  simp [route_to_next_agent, supervisor_agent, h]

/-- Routing rule 2: the guidance stage is chosen next. -/
theorem route_sup_guid (now dur : ℚ) (st : EmergencyState)
    (h1 : AgentNames.SITUATION ∈ st.agents_called)
    (h2 : AgentNames.GUIDANCE ∉ st.agents_called) :
    route_to_next_agent (supervisor_agent now dur st) = AgentNames.GUIDANCE := by
  simp [route_to_next_agent, supervisor_agent, h1, h2]

/-- Routing rule 3, positive case: resource coordination is needed. -/
theorem route_sup_res (now dur : ℚ) (st : EmergencyState)
    (h1 : AgentNames.SITUATION ∈ st.agents_called)
    (h2 : AgentNames.GUIDANCE ∈ st.agents_called)
    (h3 : AgentNames.RESOURCE ∉ st.agents_called)
    (hc : 3 ≤ st.severity.getD 3 ∨ inCriticalTypes st.emergency_type = true) :
    route_to_next_agent (supervisor_agent now dur st) = AgentNames.RESOURCE := by
  simp [route_to_next_agent, supervisor_agent, h1, h2, h3, hc]

/-- Routing rule 3, negative case: low severity ends the run. -/
theorem route_sup_end_low (now dur : ℚ) (st : EmergencyState)
    (h1 : AgentNames.SITUATION ∈ st.agents_called)
    (h2 : AgentNames.GUIDANCE ∈ st.agents_called)
    (h3 : AgentNames.RESOURCE ∉ st.agents_called)
    (hc : ¬(3 ≤ st.severity.getD 3 ∨ inCriticalTypes st.emergency_type = true)) :
    route_to_next_agent (supervisor_agent now dur st) = AgentNames.END := by
  simp [route_to_next_agent, supervisor_agent, h1, h2, h3, hc]

/-- Routing rule 4: all specialists consulted ends the run. -/
theorem route_sup_end_all (now dur : ℚ) (st : EmergencyState)
    (h1 : AgentNames.SITUATION ∈ st.agents_called)
    (h2 : AgentNames.GUIDANCE ∈ st.agents_called)
    (h3 : AgentNames.RESOURCE ∈ st.agents_called) :
    route_to_next_agent (supervisor_agent now dur st) = AgentNames.END := by
  simp [route_to_next_agent, supervisor_agent, h1, h2, h3]

/-- The terminal flag is set in the low-severity end case. -/
theorem sup_complete_end_low (now dur : ℚ) (st : EmergencyState)
    (h1 : AgentNames.SITUATION ∈ st.agents_called)
    (h2 : AgentNames.GUIDANCE ∈ st.agents_called)
    (h3 : AgentNames.RESOURCE ∉ st.agents_called)
    (hc : ¬(3 ≤ st.severity.getD 3 ∨ inCriticalTypes st.emergency_type = true)) :
    (supervisor_agent now dur st).assessment_complete = true := by
  simp [supervisor_agent, h1, h2, h3, hc]

/-- The terminal flag is set in the all-consulted end case. -/
theorem sup_complete_end_all (now dur : ℚ) (st : EmergencyState)
    (h1 : AgentNames.SITUATION ∈ st.agents_called)
    (h2 : AgentNames.GUIDANCE ∈ st.agents_called)
    (h3 : AgentNames.RESOURCE ∈ st.agents_called) :
    (supervisor_agent now dur st).assessment_complete = true := by
  simp [supervisor_agent, h1, h2, h3]

/-- The driver halts when the supervisor routes to end. -/
theorem driver_eq_of_route_end (fuel : Nat) (o : Oracle) (clock : Nat → ℚ)
    (k : Nat) (st : EmergencyState)
    (h : route_to_next_agent (supervisor_agent (clock k) 0 st) = AgentNames.END) :
    driver (fuel + 1) o clock k st = some (supervisor_agent (clock k) 0 st) := by
  simp only [driver]
  rw [h]
  simp

/-- The driver runs the situation stage when the supervisor routes there. -/
theorem driver_to_sit (fuel : Nat) (o : Oracle) (clock : Nat → ℚ)
    (k : Nat) (st : EmergencyState)
    (h : route_to_next_agent (supervisor_agent (clock k) 0 st) = AgentNames.SITUATION) :
    driver (fuel + 1) o clock k st =
      driver fuel o clock (k + 2)
        (situation_agent (clock (k + 1)) 0 o.sit (supervisor_agent (clock k) 0 st)) := by
  simp only [driver]
  rw [h]
  simp [AgentNames.SITUATION, AgentNames.END]

/-- The driver runs the guidance stage when the supervisor routes there. -/
theorem driver_to_guid (fuel : Nat) (o : Oracle) (clock : Nat → ℚ)
    (k : Nat) (st : EmergencyState)
    (h : route_to_next_agent (supervisor_agent (clock k) 0 st) = AgentNames.GUIDANCE) :
    driver (fuel + 1) o clock k st =
      driver fuel o clock (k + 2)
        (guidance_agent (clock (k + 1)) 0 o.guid (supervisor_agent (clock k) 0 st)) := by
  simp only [driver]
  rw [h]
  simp [AgentNames.GUIDANCE, AgentNames.SITUATION, AgentNames.END]

/-- The driver runs the resource stage when the supervisor routes there. -/
theorem driver_to_res (fuel : Nat) (o : Oracle) (clock : Nat → ℚ)
    (k : Nat) (st : EmergencyState)
    (h : route_to_next_agent (supervisor_agent (clock k) 0 st) = AgentNames.RESOURCE) :
    driver (fuel + 1) o clock k st =
      driver fuel o clock (k + 2)
        (resource_agent (clock (k + 1)) 0 o.res (supervisor_agent (clock k) 0 st)) := by
  simp only [driver]
  rw [h]
  simp [AgentNames.RESOURCE, AgentNames.GUIDANCE, AgentNames.SITUATION, AgentNames.END]

/-- Each supervisor evaluation adds exactly one routing event. -/
theorem sup_routerEventCount (now dur : ℚ) (st : EmergencyState) :
    routerEventCount (supervisor_agent now dur st).execution_trace =
      routerEventCount st.execution_trace + 1 := by
  simp [supervisor_agent, routerEventCount, List.countP_append]

/-- The situation stage adds no routing event. -/
theorem sit_routerEventCount (now dur : ℚ)
    (r : Except String (SituationResponse × Option Nat)) (st : EmergencyState) :
    routerEventCount (situation_agent now dur r st).execution_trace =
      routerEventCount st.execution_trace := by
  cases r with
  | ok p =>
    cases p
    simp [situation_agent, routerEventCount, List.countP_append]
  | error e =>
    simp [situation_agent, routerEventCount, List.countP_append]

/-- The guidance stage adds no routing event. -/
theorem guid_routerEventCount (now dur : ℚ)
    (r : Except String (GuidanceResponse × Option Nat)) (st : EmergencyState) :
    routerEventCount (guidance_agent now dur r st).execution_trace =
      routerEventCount st.execution_trace := by
  cases r with
  | ok p =>
    cases p
    simp [guidance_agent, routerEventCount, List.countP_append]
  | error e =>
    simp [guidance_agent, routerEventCount, List.countP_append]

/-- The resource stage adds no routing event. -/
theorem res_routerEventCount (now dur : ℚ)
    (r : Except String (ResourceResponse × Option Nat)) (st : EmergencyState) :
    routerEventCount (resource_agent now dur r st).execution_trace =
      routerEventCount st.execution_trace := by
  cases r with
  | ok p =>
    cases p
    simp [resource_agent, routerEventCount, List.countP_append]
  | error e =>
    simp [resource_agent, routerEventCount, List.countP_append]

/-- Claim C1: for every state record, the supervisor's next-stage decision
follows the fixed priority order of the specification's transition table —
situation stage while its id is absent from the executed list, else
guidance, else resource when severity ≥ 3 or the category is medical,
security or natural_disaster (terminal otherwise), else terminal. -/
theorem supervisor_follows_priority_spec (st : EmergencyState) (now dur : ℚ)
    (sv : Int) (h : st.severity = some sv) :
    (supervisor_agent now dur st).next_agent =
      some (routerNextSpec st.agents_called st.emergency_type sv) := by
  simp only [supervisor_agent, routerNextSpec, h, Option.getD_some]
  by_cases h1 : AgentNames.SITUATION ∈ st.agents_called <;>
    by_cases h2 : AgentNames.GUIDANCE ∈ st.agents_called <;>
      by_cases h3 : AgentNames.RESOURCE ∈ st.agents_called <;>
        by_cases h4 : (3:Int) ≤ sv <;>
          cases hc : st.emergency_type <;>
            simp_all [inCriticalTypes] <;> split <;> simp_all

/-- Witness for C1: concrete state with severity 2. -/
theorem supervisor_follows_priority_spec_witness :
    ({ initialState "kitchen fire" none none none with
        severity := some 2 } : EmergencyState).severity = some 2 ∧
    (supervisor_agent 0 0 { initialState "kitchen fire" none none none with
        severity := some 2 }).next_agent =
      some (routerNextSpec
        ({ initialState "kitchen fire" none none none with
            severity := some 2 } : EmergencyState).agents_called
        ({ initialState "kitchen fire" none none none with
            severity := some 2 } : EmergencyState).emergency_type 2) :=
  ⟨rfl, supervisor_follows_priority_spec
    { initialState "kitchen fire" none none none with severity := some 2 } 0 0 2 rfl⟩

/-- Claim C7: the router is deterministic and idempotent — invoking the
supervisor twice in succession on the same record without running a stage
in between yields the same next-stage decision both times. -/
theorem router_idempotent (st : EmergencyState) (t1 d1 t2 d2 : ℚ) :
    (supervisor_agent t2 d2 (supervisor_agent t1 d1 st)).next_agent =
      (supervisor_agent t1 d1 st).next_agent := by
  simp only [supervisor_agent,
    mem_addOnce_ne (show AgentNames.SITUATION ≠ AgentNames.SUPERVISOR by decide),
    mem_addOnce_ne (show AgentNames.GUIDANCE ≠ AgentNames.SUPERVISOR by decide),
    mem_addOnce_ne (show AgentNames.RESOURCE ≠ AgentNames.SUPERVISOR by decide)]

/-- Claim C2: on any collaborator or parse failure, each of the situation,
guidance and resource stages writes its predefined deterministic fallback
values into its owned fields, records confidence exactly 1.0, appends
exactly one trace event with action "error" carrying the error description,
and still registers its stage id in the executed list. -/
theorem stage_error_fallback :
    (∀ (st : EmergencyState) (e : String) (now dur : ℚ),
      (situation_agent now dur (.error e) st).emergency_type = some "unknown" ∧
      (situation_agent now dur (.error e) st).severity = some 3 ∧
      (situation_agent now dur (.error e) st).immediate_risks =
        some ["Unable to assess - proceed with caution"] ∧
      (situation_agent now dur (.error e) st).situation_confidence = some 1 ∧
      (situation_agent now dur (.error e) st).execution_trace =
        st.execution_trace ++
          [{ agent := AgentNames.SITUATION, action := "error", error := some e,
             timestamp := now, execution_time := dur }] ∧
      AgentNames.SITUATION ∈ (situation_agent now dur (.error e) st).agents_called) ∧
    (∀ (st : EmergencyState) (e : String) (now dur : ℚ),
      (guidance_agent now dur (.error e) st).recommended_response = some "contact_help" ∧
      (guidance_agent now dur (.error e) st).guidance_steps = some guidanceFallbackSteps ∧
      (guidance_agent now dur (.error e) st).guidance_confidence = some 1 ∧
      (guidance_agent now dur (.error e) st).execution_trace =
        st.execution_trace ++
          [{ agent := AgentNames.GUIDANCE, action := "error", error := some e,
             timestamp := now, execution_time := dur }] ∧
      AgentNames.GUIDANCE ∈ (guidance_agent now dur (.error e) st).agents_called) ∧
    (∀ (st : EmergencyState) (e : String) (now dur : ℚ),
      (resource_agent now dur (.error e) st).emergency_services = some "911" ∧
      (resource_agent now dur (.error e) st).nearby_hospitals =
        some ["Call 911 for nearest emergency facility"] ∧
      (resource_agent now dur (.error e) st).additional_resources =
        some ["National Emergency Hotline: 911"] ∧
      (resource_agent now dur (.error e) st).resource_confidence = some 1 ∧
      (resource_agent now dur (.error e) st).execution_trace =
        st.execution_trace ++
          [{ agent := AgentNames.RESOURCE, action := "error", error := some e,
             timestamp := now, execution_time := dur }] ∧
      AgentNames.RESOURCE ∈ (resource_agent now dur (.error e) st).agents_called) := by
  refine ⟨?_, ?_, ?_⟩ <;> intro st e now dur <;>
    simp [situation_agent, guidance_agent, resource_agent, mem_addOnce_self]

/-- Claim C9: on a successful stage execution whose parsed reply omits the
confidence field, each specialist records confidence exactly 3.0 in its
owned confidence field. -/
theorem confidence_defaults_to_three (st : EmergencyState) (now dur : ℚ)
    (a : SituationResponse) (g : GuidanceResponse) (r : ResourceResponse)
    (ua ug ur : Option Nat)
    (ha : a.confidence = none) (hg : g.confidence = none) (hr : r.confidence = none) :
    (situation_agent now dur (.ok (a, ua)) st).situation_confidence = some 3 ∧
    (guidance_agent now dur (.ok (g, ug)) st).guidance_confidence = some 3 ∧
    (resource_agent now dur (.ok (r, ur)) st).resource_confidence = some 3 := by
  simp [situation_agent, guidance_agent, resource_agent, ha, hg, hr]

/-- Witness for C9: replies with every field absent. -/
theorem confidence_defaults_to_three_witness :
    ({} : SituationResponse).confidence = none ∧
    ({} : GuidanceResponse).confidence = none ∧
    ({} : ResourceResponse).confidence = none ∧
    ((situation_agent 0 0 (.ok ({}, none))
        (initialState "stuck elevator" none none none)).situation_confidence = some 3 ∧
     (guidance_agent 0 0 (.ok ({}, none))
        (initialState "stuck elevator" none none none)).guidance_confidence = some 3 ∧
     (resource_agent 0 0 (.ok ({}, none))
        (initialState "stuck elevator" none none none)).resource_confidence = some 3) :=
  ⟨rfl, rfl, rfl, confidence_defaults_to_three
    (initialState "stuck elevator" none none none) 0 0 {} {} {} none none none
    rfl rfl rfl⟩

/-- Claim C10: when the effective family-contacts list is empty (key absent
or empty list), the communication stage ignores the collaborator entirely,
writes an empty contact-message list and confidence 1.0, registers its
stage id at most once, and appends exactly one "no_contacts" trace event. -/
theorem communication_no_contacts (st : EmergencyState) (now dur : ℚ)
    (h : st.family_contacts.getD [] = []) :
    (∀ r1 r2 : Except String (CommunicationResponse × Option Nat),
      communication_agent now dur r1 st = communication_agent now dur r2 st) ∧
    (∀ r : Except String (CommunicationResponse × Option Nat),
      (communication_agent now dur r st).family_messages = some [] ∧
      (communication_agent now dur r st).communication_confidence = some 1 ∧
      (communication_agent now dur r st).execution_trace =
        st.execution_trace ++
          [{ agent := AgentNames.COMMUNICATION, action := "no_contacts",
             timestamp := now, execution_time := dur }] ∧
      (AgentNames.COMMUNICATION ∉ st.agents_called →
        (communication_agent now dur r st).agents_called =
          st.agents_called ++ [AgentNames.COMMUNICATION]) ∧
      (AgentNames.COMMUNICATION ∈ st.agents_called →
        (communication_agent now dur r st).agents_called = st.agents_called)) := by
  constructor
  · intro r1 r2
    simp [communication_agent, h]
  · intro r
    simp [communication_agent, h, addOnce]

/-- Witness for C10: fresh state, whose contacts key is absent. -/
theorem communication_no_contacts_witness :
    (initialState "flooded basement" none none none).family_contacts.getD [] = [] ∧
    ((∀ r1 r2 : Except String (CommunicationResponse × Option Nat),
       communication_agent 0 0 r1 (initialState "flooded basement" none none none) =
         communication_agent 0 0 r2 (initialState "flooded basement" none none none)) ∧
     (∀ r : Except String (CommunicationResponse × Option Nat),
       (communication_agent 0 0 r (initialState "flooded basement" none none none)).family_messages = some [] ∧
       (communication_agent 0 0 r (initialState "flooded basement" none none none)).communication_confidence = some 1 ∧
       (communication_agent 0 0 r (initialState "flooded basement" none none none)).execution_trace =
         (initialState "flooded basement" none none none).execution_trace ++
           [{ agent := AgentNames.COMMUNICATION, action := "no_contacts",
              timestamp := 0, execution_time := 0 }] ∧
       (AgentNames.COMMUNICATION ∉ (initialState "flooded basement" none none none).agents_called →
         (communication_agent 0 0 r (initialState "flooded basement" none none none)).agents_called =
           (initialState "flooded basement" none none none).agents_called ++
             [AgentNames.COMMUNICATION]) ∧
       (AgentNames.COMMUNICATION ∈ (initialState "flooded basement" none none none).agents_called →
         (communication_agent 0 0 r (initialState "flooded basement" none none none)).agents_called =
           (initialState "flooded basement" none none none).agents_called))) :=
  ⟨rfl, communication_no_contacts (initialState "flooded basement" none none none) 0 0 rfl⟩

/-- Claim C4: every router and stage operation preserves the state
invariants — the executed-stage list stays duplicate-free and only gets
extended, the trace only gets extended with timestamps staying
non-decreasing (given the operation's clock reading is no earlier than
every recorded event), and a terminal flag that is true is never reset. -/
theorem ops_preserve_state_invariants (op : AgentOp) (st : EmergencyState)
    (hnd : st.agents_called.Nodup)
    (hts : tsMono st.execution_trace)
    (hnow : ∀ e ∈ st.execution_trace, e.timestamp ≤ op.time) :
    (applyOp op st).agents_called.Nodup ∧
    tsMono (applyOp op st).execution_trace ∧
    (∃ t, (applyOp op st).agents_called = st.agents_called ++ t) ∧
    (∃ t, (applyOp op st).execution_trace = st.execution_trace ++ t) ∧
    (st.assessment_complete = true → (applyOp op st).assessment_complete = true) := by
  cases op with
  | sup now dur =>
    refine ⟨addOnce_nodup _ _ hnd, tsMono_append_single _ _ hts hnow,
      addOnce_grows _ _, ⟨_, rfl⟩, fun h => ?_⟩
    simp [applyOp, supervisor_agent, h]
  | sit now dur r =>
    cases r with
    | ok p =>
      exact ⟨addOnce_nodup _ _ hnd, tsMono_append_single _ _ hts hnow,
        addOnce_grows _ _, ⟨_, rfl⟩, fun h => h⟩
    | error e =>
      exact ⟨addOnce_nodup _ _ hnd, tsMono_append_single _ _ hts hnow,
        addOnce_grows _ _, ⟨_, rfl⟩, fun h => h⟩
  | guid now dur r =>
    cases r with
    | ok p =>
      exact ⟨addOnce_nodup _ _ hnd, tsMono_append_single _ _ hts hnow,
        addOnce_grows _ _, ⟨_, rfl⟩, fun h => h⟩
    | error e =>
      exact ⟨addOnce_nodup _ _ hnd, tsMono_append_single _ _ hts hnow,
        addOnce_grows _ _, ⟨_, rfl⟩, fun h => h⟩
  | res now dur r =>
    cases r with
    | ok p =>
      exact ⟨addOnce_nodup _ _ hnd, tsMono_append_single _ _ hts hnow,
        addOnce_grows _ _, ⟨_, rfl⟩, fun h => h⟩
    | error e =>
      exact ⟨addOnce_nodup _ _ hnd, tsMono_append_single _ _ hts hnow,
        addOnce_grows _ _, ⟨_, rfl⟩, fun h => h⟩
  | comm now dur r =>
    simp only [applyOp, communication_agent]
    by_cases hc : st.family_contacts.getD [] = []
    · simp only [if_pos hc]
      exact ⟨addOnce_nodup _ _ hnd, tsMono_append_single _ _ hts hnow,
        addOnce_grows _ _, ⟨_, rfl⟩, fun h => h⟩
    · simp only [if_neg hc]
      cases r with
      | ok p =>
        exact ⟨addOnce_nodup _ _ hnd, tsMono_append_single _ _ hts hnow,
          addOnce_grows _ _, ⟨_, rfl⟩, fun h => h⟩
      | error e =>
        exact ⟨addOnce_nodup _ _ hnd, tsMono_append_single _ _ hts hnow,
          addOnce_grows _ _, ⟨_, rfl⟩, fun h => h⟩

/-- Witness for C4: supervisor evaluation on a fresh state at clock 5. -/
theorem ops_preserve_state_invariants_witness :
    (initialState "smoke alarm" none none none).agents_called.Nodup ∧
    tsMono (initialState "smoke alarm" none none none).execution_trace ∧
    (∀ e ∈ (initialState "smoke alarm" none none none).execution_trace,
      e.timestamp ≤ (AgentOp.sup 5 1).time) ∧
    ((applyOp (AgentOp.sup 5 1) (initialState "smoke alarm" none none none)).agents_called.Nodup ∧
     tsMono (applyOp (AgentOp.sup 5 1) (initialState "smoke alarm" none none none)).execution_trace ∧
     (∃ t, (applyOp (AgentOp.sup 5 1) (initialState "smoke alarm" none none none)).agents_called =
       (initialState "smoke alarm" none none none).agents_called ++ t) ∧
     (∃ t, (applyOp (AgentOp.sup 5 1) (initialState "smoke alarm" none none none)).execution_trace =
       (initialState "smoke alarm" none none none).execution_trace ++ t) ∧
     ((initialState "smoke alarm" none none none).assessment_complete = true →
       (applyOp (AgentOp.sup 5 1) (initialState "smoke alarm" none none none)).assessment_complete = true)) :=
  ⟨by simp [initialState], by simp [initialState, tsMono], by simp [initialState],
   ops_preserve_state_invariants (AgentOp.sup 5 1)
     (initialState "smoke alarm" none none none)
     (by simp [initialState]) (by simp [initialState, tsMono]) (by simp [initialState])⟩

/-- From a state where situation and guidance are done and the resource
decision is pending, two supervisor evaluations end the run. -/
theorem driver_two_end (o : Oracle) (clock : Nat → ℚ) (k : Nat)
    (st : EmergencyState)
    (h1 : AgentNames.SITUATION ∈ st.agents_called)
    (h2 : AgentNames.GUIDANCE ∈ st.agents_called) :
    ∃ final, driver 2 o clock k st = some final ∧
      final.assessment_complete = true ∧
      routerEventCount final.execution_trace ≤
        routerEventCount st.execution_trace + 2 := by
  by_cases h3 : AgentNames.RESOURCE ∈ st.agents_called
  · refine ⟨_, driver_eq_of_route_end 1 o clock k st
      (route_sup_end_all (clock k) 0 st h1 h2 h3), ?_, ?_⟩
    · exact sup_complete_end_all (clock k) 0 st h1 h2 h3
    · rw [sup_routerEventCount]
      omega
  · by_cases hc : 3 ≤ st.severity.getD 3 ∨ inCriticalTypes st.emergency_type = true
    · have e1 : driver 2 o clock k st =
        driver 1 o clock (k + 2)
          (resource_agent (clock (k + 1)) 0 o.res (supervisor_agent (clock k) 0 st)) :=
        driver_to_res 1 o clock k st (route_sup_res (clock k) 0 st h1 h2 h3 hc)
      have hag : (resource_agent (clock (k + 1)) 0 o.res
          (supervisor_agent (clock k) 0 st)).agents_called =
            addOnce (addOnce st.agents_called AgentNames.SUPERVISOR)
              AgentNames.RESOURCE := by
        rw [resource_agent_agents, sup_agents]
      have m1 : AgentNames.SITUATION ∈ (resource_agent (clock (k + 1)) 0 o.res
          (supervisor_agent (clock k) 0 st)).agents_called := by
        rw [hag]
        exact mem_addOnce_of_mem _ (mem_addOnce_of_mem _ h1)
      have m2 : AgentNames.GUIDANCE ∈ (resource_agent (clock (k + 1)) 0 o.res
          (supervisor_agent (clock k) 0 st)).agents_called := by
        rw [hag]
        exact mem_addOnce_of_mem _ (mem_addOnce_of_mem _ h2)
      have m3 : AgentNames.RESOURCE ∈ (resource_agent (clock (k + 1)) 0 o.res
          (supervisor_agent (clock k) 0 st)).agents_called := by
        rw [hag]
        exact mem_addOnce_self _ _
      have e2 := driver_eq_of_route_end 0 o clock (k + 2)
        (resource_agent (clock (k + 1)) 0 o.res (supervisor_agent (clock k) 0 st))
        (route_sup_end_all (clock (k + 2)) 0 _ m1 m2 m3)
      refine ⟨_, e1.trans e2, ?_, ?_⟩
      · exact sup_complete_end_all (clock (k + 2)) 0 _ m1 m2 m3
      · rw [sup_routerEventCount, res_routerEventCount, sup_routerEventCount]
    · refine ⟨_, driver_eq_of_route_end 1 o clock k st
        (route_sup_end_low (clock k) 0 st h1 h2 h3 hc), ?_, ?_⟩
      · exact sup_complete_end_low (clock k) 0 st h1 h2 h3 hc
      · rw [sup_routerEventCount]
        omega

/-- From a state where situation is done and guidance is not, three
supervisor evaluations end the run. -/
theorem driver_three_end (o : Oracle) (clock : Nat → ℚ) (k : Nat)
    (st : EmergencyState)
    (h1 : AgentNames.SITUATION ∈ st.agents_called)
    (h2 : AgentNames.GUIDANCE ∉ st.agents_called) :
    ∃ final, driver 3 o clock k st = some final ∧
      final.assessment_complete = true ∧
      routerEventCount final.execution_trace ≤
        routerEventCount st.execution_trace + 3 := by
  have e1 : driver 3 o clock k st =
      driver 2 o clock (k + 2)
        (guidance_agent (clock (k + 1)) 0 o.guid (supervisor_agent (clock k) 0 st)) :=
    driver_to_guid 2 o clock k st (route_sup_guid (clock k) 0 st h1 h2)
  have hag : (guidance_agent (clock (k + 1)) 0 o.guid
      (supervisor_agent (clock k) 0 st)).agents_called =
        addOnce (addOnce st.agents_called AgentNames.SUPERVISOR)
          AgentNames.GUIDANCE := by
    rw [guidance_agent_agents, sup_agents]
  have m1 : AgentNames.SITUATION ∈ (guidance_agent (clock (k + 1)) 0 o.guid
      (supervisor_agent (clock k) 0 st)).agents_called := by
    rw [hag]
    exact mem_addOnce_of_mem _ (mem_addOnce_of_mem _ h1)
  have m2 : AgentNames.GUIDANCE ∈ (guidance_agent (clock (k + 1)) 0 o.guid
      (supervisor_agent (clock k) 0 st)).agents_called := by
    rw [hag]
    exact mem_addOnce_self _ _
  obtain ⟨final, hrun, hdone, hcount⟩ := driver_two_end o clock (k + 2)
    (guidance_agent (clock (k + 1)) 0 o.guid (supervisor_agent (clock k) 0 st)) m1 m2
  refine ⟨final, e1.trans hrun, hdone, ?_⟩
  rw [guid_routerEventCount, sup_routerEventCount] at hcount
  omega

/-- Claim C3: every pipeline run from a fresh initial state terminates,
whatever the collaborator oracle and the clock do — the driver reaches the
terminal flag within 4 supervisor evaluations (stage count 3 plus 1) and
the final trace holds at most 4 routing events. -/
theorem pipeline_terminates_bounded (d : String) (loc tid wid : Option String)
    (o : Oracle) (clock : Nat → ℚ) :
    ∃ final, driver 4 o clock 0 (initialState d loc tid wid) = some final ∧
      final.assessment_complete = true ∧
      routerEventCount final.execution_trace ≤ 4 := by
  have h0 : AgentNames.SITUATION ∉ (initialState d loc tid wid).agents_called := by
    simp [initialState]
  have e1 : driver 4 o clock 0 (initialState d loc tid wid) =
      driver 3 o clock 2
        (situation_agent (clock 1) 0 o.sit
          (supervisor_agent (clock 0) 0 (initialState d loc tid wid))) :=
    driver_to_sit 3 o clock 0 (initialState d loc tid wid)
      (route_sup_sit (clock 0) 0 _ h0)
  have hag : (situation_agent (clock 1) 0 o.sit
      (supervisor_agent (clock 0) 0 (initialState d loc tid wid))).agents_called =
        [AgentNames.SUPERVISOR, AgentNames.SITUATION] := by
    rw [situation_agent_agents, sup_agents]
    rfl
  have m1 : AgentNames.SITUATION ∈ (situation_agent (clock 1) 0 o.sit
      (supervisor_agent (clock 0) 0 (initialState d loc tid wid))).agents_called := by
    rw [hag]
    simp
  have m2 : AgentNames.GUIDANCE ∉ (situation_agent (clock 1) 0 o.sit
      (supervisor_agent (clock 0) 0 (initialState d loc tid wid))).agents_called := by
    rw [hag]
    decide
  obtain ⟨final, hrun, hdone, hcount⟩ := driver_three_end o clock 2
    (situation_agent (clock 1) 0 o.sit
      (supervisor_agent (clock 0) 0 (initialState d loc tid wid))) m1 m2
  refine ⟨final, e1.trans hrun, hdone, ?_⟩
  rw [sit_routerEventCount, sup_routerEventCount] at hcount
  simpa [routerEventCount, initialState] using hcount

/-- Counterexample to claim C5: the stages write collaborator-reported
severity and confidence without any clamping — a reply with severity 9 and
confidence 7.0 is written into the state verbatim, outside [1,5] and
[1.0,5.0]. -/
theorem confidence_severity_bounds_counterexample :
    (situation_agent 0 0 (.ok (stormResponse, some 10)) stormState).severity = some 9 ∧
    (situation_agent 0 0 (.ok (stormResponse, some 10)) stormState).situation_confidence = some 7 ∧
    ¬((9:Int) ≤ 5) ∧ ¬((7:ℚ) ≤ 5) := by
  refine ⟨rfl, rfl, by decide, by norm_num⟩

/-- Amended claim C5: the bounds hold exactly when the collaborator's
reported severity and confidence values, where present, lie in range —
fallback and omitted-field defaults (3, 1.0, 3.0) are in range
unconditionally, but in-range output on success is only as good as the
collaborator's reply. -/
theorem bounds_hold_for_inrange_collaborator (st : EmergencyState) (now dur : ℚ)
    (a : SituationResponse) (g : GuidanceResponse) (r : ResourceResponse)
    (c : CommunicationResponse) (ua ug ur uc : Option Nat) (e : String)
    (hsev : ∀ x, a.severity = some x → 1 ≤ x ∧ x ≤ 5)
    (hac : ∀ x, a.confidence = some x → 1 ≤ x ∧ x ≤ 5)
    (hgc : ∀ x, g.confidence = some x → 1 ≤ x ∧ x ≤ 5)
    (hrc : ∀ x, r.confidence = some x → 1 ≤ x ∧ x ≤ 5)
    (hcc : ∀ x, c.overallConfidence = some x → 1 ≤ x ∧ x ≤ 5) :
    (∃ sv, (situation_agent now dur (.ok (a, ua)) st).severity = some sv ∧
      1 ≤ sv ∧ sv ≤ 5) ∧
    (∃ q, (situation_agent now dur (.ok (a, ua)) st).situation_confidence = some q ∧
      1 ≤ q ∧ q ≤ 5) ∧
    (∃ q, (guidance_agent now dur (.ok (g, ug)) st).guidance_confidence = some q ∧
      1 ≤ q ∧ q ≤ 5) ∧
    (∃ q, (resource_agent now dur (.ok (r, ur)) st).resource_confidence = some q ∧
      1 ≤ q ∧ q ≤ 5) ∧
    (∃ q, (communication_agent now dur (.ok (c, uc)) st).communication_confidence = some q ∧
      1 ≤ q ∧ q ≤ 5) ∧
    (situation_agent now dur (.error e) st).severity = some 3 ∧
    (situation_agent now dur (.error e) st).situation_confidence = some 1 ∧
    (guidance_agent now dur (.error e) st).guidance_confidence = some 1 ∧
    (resource_agent now dur (.error e) st).resource_confidence = some 1 ∧
    (communication_agent now dur (.error e) st).communication_confidence = some 1 := by
  refine ⟨?_, ?_, ?_, ?_, ?_, rfl, rfl, rfl, rfl, ?_⟩
  · cases ha : a.severity with
    | none => exact ⟨3, by simp [situation_agent, ha], by norm_num⟩
    | some x => exact ⟨x, by simp [situation_agent, ha], hsev x ha⟩
  · cases ha : a.confidence with
    | none => exact ⟨3, by simp [situation_agent, ha], by norm_num⟩
    | some x => exact ⟨x, by simp [situation_agent, ha], hac x ha⟩
  · cases hg : g.confidence with
    | none => exact ⟨3, by simp [guidance_agent, hg], by norm_num⟩
    | some x => exact ⟨x, by simp [guidance_agent, hg], hgc x hg⟩
  · cases hr : r.confidence with
    | none => exact ⟨3, by simp [resource_agent, hr], by norm_num⟩
    | some x => exact ⟨x, by simp [resource_agent, hr], hrc x hr⟩
  · by_cases hf : st.family_contacts.getD [] = []
    · exact ⟨1, by simp [communication_agent, hf], by norm_num⟩
    · cases hcq : c.overallConfidence with
      | none => exact ⟨3, by simp [communication_agent, hf, hcq], by norm_num⟩
      | some x => exact ⟨x, by simp [communication_agent, hf, hcq], hcc x hcq⟩
  · by_cases hf : st.family_contacts.getD [] = []
    · simp [communication_agent, hf]
    · simp [communication_agent, hf]

/-- Witness for the amended C5: replies with every field omitted satisfy
the in-range hypotheses vacuously. -/
theorem bounds_hold_for_inrange_collaborator_witness :
    (∀ x, ({} : SituationResponse).severity = some x → 1 ≤ x ∧ x ≤ 5) ∧
    (∀ x, ({} : SituationResponse).confidence = some x → 1 ≤ x ∧ x ≤ 5) ∧
    (∀ x, ({} : GuidanceResponse).confidence = some x → 1 ≤ x ∧ x ≤ 5) ∧
    (∀ x, ({} : ResourceResponse).confidence = some x → 1 ≤ x ∧ x ≤ 5) ∧
    (∀ x, ({} : CommunicationResponse).overallConfidence = some x → 1 ≤ x ∧ x ≤ 5) ∧
    ((∃ sv, (situation_agent 0 0 (.ok ({}, none))
        (initialState "gas leak" none none none)).severity = some sv ∧
      1 ≤ sv ∧ sv ≤ 5) ∧
     (∃ q, (situation_agent 0 0 (.ok ({}, none))
        (initialState "gas leak" none none none)).situation_confidence = some q ∧
      1 ≤ q ∧ q ≤ 5) ∧
     (∃ q, (guidance_agent 0 0 (.ok ({}, none))
        (initialState "gas leak" none none none)).guidance_confidence = some q ∧
      1 ≤ q ∧ q ≤ 5) ∧
     (∃ q, (resource_agent 0 0 (.ok ({}, none))
        (initialState "gas leak" none none none)).resource_confidence = some q ∧
      1 ≤ q ∧ q ≤ 5) ∧
     (∃ q, (communication_agent 0 0 (.ok ({}, none))
        (initialState "gas leak" none none none)).communication_confidence = some q ∧
      1 ≤ q ∧ q ≤ 5) ∧
     (situation_agent 0 0 (.error "timeout")
        (initialState "gas leak" none none none)).severity = some 3 ∧
     (situation_agent 0 0 (.error "timeout")
        (initialState "gas leak" none none none)).situation_confidence = some 1 ∧
     (guidance_agent 0 0 (.error "timeout")
        (initialState "gas leak" none none none)).guidance_confidence = some 1 ∧
     (resource_agent 0 0 (.error "timeout")
        (initialState "gas leak" none none none)).resource_confidence = some 1 ∧
     (communication_agent 0 0 (.error "timeout")
        (initialState "gas leak" none none none)).communication_confidence = some 1) :=
  ⟨(fun _ hx => nomatch hx), (fun _ hx => nomatch hx), (fun _ hx => nomatch hx),
   (fun _ hx => nomatch hx), (fun _ hx => nomatch hx),
   bounds_hold_for_inrange_collaborator (initialState "gas leak" none none none)
     0 0 {} {} {} {} none none none none "timeout"
     (fun _ hx => nomatch hx) (fun _ hx => nomatch hx) (fun _ hx => nomatch hx)
     (fun _ hx => nomatch hx) (fun _ hx => nomatch hx)⟩

set_option maxHeartbeats 1000000 in
/-- Counterexample to claim C6: a present-but-empty description passes
request validation — only a missing description field is rejected — and the
pipeline then runs on the empty description, producing a trace and invoking
the situation stage. -/
theorem empty_description_not_rejected :
    (validateEmergencyRequest
      { description := some "", location := none, thread_id := none }).isOk = true ∧
    ∃ final, driver 4 allFailOracle (fun _ => 0) 0 (initialState "" none none none) =
        some final ∧
      final.execution_trace ≠ [] ∧
      AgentNames.SITUATION ∈ final.agents_called := by
  exact ⟨rfl, _, rfl, by decide, by decide⟩

/-- Amended claim C6: only a request whose description field is missing is
rejected by validation before any stage or router invocation (and hence
with no trace); an empty description string is accepted and the run
proceeds. -/
theorem missing_description_rejected (r : RawRequest) (h : r.description = none) :
    validateEmergencyRequest r = .error "field required: description" ∧
    ∀ loc tid, (validateEmergencyRequest
      { description := some "", location := loc, thread_id := tid }).isOk = true := by
  simp [validateEmergencyRequest, h, Except.isOk, Except.toBool]

/-- Witness for the amended C6: the empty request body. -/
theorem missing_description_rejected_witness :
    ({ description := none, location := none, thread_id := none } : RawRequest).description = none ∧
    (validateEmergencyRequest
       { description := none, location := none, thread_id := none } =
         .error "field required: description" ∧
     ∀ loc tid, (validateEmergencyRequest
       { description := some "", location := loc, thread_id := tid }).isOk = true) :=
  ⟨rfl, missing_description_rejected
    { description := none, location := none, thread_id := none } rfl⟩

set_option maxHeartbeats 1000000 in
/-- Counterexample to claim C8: in the severity-2 "accident" scenario the
final routing decision's recorded reason is the source string
"Low severity - resources not needed", not the claimed string
"low severity — resources not needed". -/
theorem low_severity_reason_text_counterexample :
    ∃ final, accidentRun = some final ∧
      (final.execution_trace.getLast?).map TraceEvent.reason =
        some (some "Low severity - resources not needed") ∧
      (final.execution_trace.getLast?).map TraceEvent.reason ≠
        some (some "low severity — resources not needed") := by
  exact ⟨_, rfl, by decide, by decide⟩

set_option maxHeartbeats 1000000 in
/-- Amended claim C8: with assessed severity 2 and category "accident" the
pipeline executes the situation stage, then the guidance stage, then
reaches terminal with the resource stage skipped, the final routing
decision recording the reason "Low severity - resources not needed". -/
theorem low_severity_accident_scenario :
    ∃ final, accidentRun = some final ∧
      final.execution_trace.map TraceEvent.agent =
        [AgentNames.SUPERVISOR, AgentNames.SITUATION, AgentNames.SUPERVISOR,
         AgentNames.GUIDANCE, AgentNames.SUPERVISOR] ∧
      AgentNames.RESOURCE ∉ final.agents_called ∧
      final.assessment_complete = true ∧
      (final.execution_trace.getLast?).map TraceEvent.reason =
        some (some "Low severity - resources not needed") := by
  exact ⟨_, rfl, by decide, by decide, by decide, by decide⟩
